import Mathlib

/-!
Shallow embedding of the Dre-s-Cart e-commerce backend
(`server/models.py` and `server/app.py`): the relational rows are Lean
structures, the database is a `Store` of row lists, and each Flask route
handler that writes to the database is a Lean function from a `Store`
(plus the parsed request) to the post-request `Store` and a response.
An early `return` before `db.session.commit()` leaves the store
untouched, since pending session objects are discarded at request teardown.

`db.Numeric(10, 2)` money columns are exact fixed-point decimals; they are
represented here as exact integers (a value in hundredths of the currency
unit), which multiplication by an integer quantity and summation preserve
exactly, as `Decimal` does in the source. Timestamps are abstract ticks.
Audit columns (`created_at` / `updated_at`) and columns no handler reads
(`description`, `image`) are not represented.
-/

/-- Exact fixed-point money value (`db.Numeric(10, 2)`), in hundredths. -/
abbrev Money := Int

/-- Abstract timestamp (`func.now()` at some request). -/
abbrev Time := Nat

/-- Row of `categories` (models.py `Category`). -/
structure Category where
  id : Nat
  name : String
deriving DecidableEq, Repr

/-- Row of `products` (models.py `Product`). -/
structure Product where
  id : Nat
  name : String
  category_id : Nat
  price : Money
  stock : Int
  is_available : Bool
deriving DecidableEq, Repr

/-- Row of `users` (models.py `User`); `password` holds the bcrypt hash. -/
structure User where
  id : Nat
  username : String
  email : String
  password : String
deriving DecidableEq, Repr

/-- Row of `orders` (models.py `Order`). -/
structure Order where
  id : Nat
  user_id : Nat
  total_price : Money
  is_paid : Bool
  payment_date : Option Time
deriving DecidableEq, Repr

/-- Row of `order_items` (models.py `OrderItem`); `price` is the frozen
line total written at order time. -/
structure OrderItem where
  id : Nat
  order_id : Nat
  product_id : Nat
  quantity : Int
  price : Money
deriving DecidableEq, Repr

/-- Row of `shipping_addresses` (models.py `ShippingAddress`);
`address_line_1`, `city`, `postal_code` and `country` are `nullable=False`
(models.py 135-139), so a persisted row always carries them, while
`address_line_2` is nullable. -/
structure ShippingAddress where
  id : Nat
  order_id : Nat
  address_line_1 : String
  address_line_2 : Option String
  city : String
  postal_code : String
  country : String
deriving DecidableEq, Repr

/-- Row of `payments` (models.py `Payment`). -/
structure Payment where
  id : Nat
  order_id : Nat
  amount : Money
  payment_method : String
  payment_date : Time
deriving DecidableEq, Repr

/-- The relational store: one list per table, plus the autoincrement
counter of each table's primary key.  Tables no app.py handler writes or
reads (`roles`, `user_roles`, `carts`, `cart_items`, `reviews`) are not
represented. -/
structure Store where
  categories : List Category
  products : List Product
  users : List User
  orders : List Order
  order_items : List OrderItem
  shipping_addresses : List ShippingAddress
  payments : List Payment
  next_category_id : Nat
  next_product_id : Nat
  next_user_id : Nat
  next_order_id : Nat
  next_order_item_id : Nat
  next_shipping_address_id : Nat
  next_payment_id : Nat
deriving DecidableEq, Repr

/-- `Product.query.get(pid)`: primary-key lookup. -/
def Store.getProduct (s : Store) (pid : Nat) : Option Product :=
  s.products.find? (fun p => p.id == pid)

/-- `Order.query.get(oid)`: primary-key lookup. -/
def Store.getOrder (s : Store) (oid : Nat) : Option Order :=
  s.orders.find? (fun o => o.id == oid)

/-- `Category.query.get(cid)`: primary-key lookup. -/
def Store.getCategory (s : Store) (cid : Nat) : Option Category :=
  s.categories.find? (fun c => c.id == cid)

/-- `User.query.get(uid)`: primary-key lookup. -/
def Store.getUser (s : Store) (uid : Nat) : Option User :=
  s.users.find? (fun u => u.id == uid)

/-! ## Username validation (models.py `User.validate_username`) -/

/-- A character matched by Python's `\w` (restricted to the ASCII range,
which covers every username the handlers and spec discuss):
letters, digits, or underscore. -/
def isWordChar (c : Char) : Bool :=
  c.isAlphanum || c == '_'

/-- `re.match(r"^\w+$", st)` as a Boolean. `re.match` anchors at the start,
`\w+` needs at least one word character, and Python's `$` matches at the
end of the string or just before a newline that ends the string, so a
string of word characters followed by one trailing newline also matches. -/
def matchWordAnchored (st : String) : Bool :=
  let cs := st.toList
  (!cs.isEmpty && cs.all isWordChar)
    || (match cs.getLast? with
        | some c =>
            c == '\n' && (!cs.dropLast.isEmpty && cs.dropLast.all isWordChar)
        | none => false)

/-- Reason carried by the `ValueError` raised in `validate_username`. -/
inductive UsernameError where
  | badLength
  | badChars
  | duplicate
deriving DecidableEq, Repr

deriving instance DecidableEq for Except

/-- models.py `User.validate_username`: length bounds, the `^\w+$` regex,
then a uniqueness query over existing users; returns the username when it
passes, otherwise the `ValueError` reason. -/
def validate_username (s : Store) (username : String) :
    Except UsernameError String :=
  if username.length < 3 || username.length > 20 then
    .error .badLength
  else if !matchWordAnchored username then
    .error .badChars
  else if s.users.any (fun u => u.username == username) then
    .error .duplicate
  else
    .ok username

/-! ## Route handlers (app.py)

Each handler takes the pre-request store and the parsed request and
returns the post-request store together with the response.  A path that
returns before `db.session.commit()` (or raises, reaching the 500 handler
whose `db.session.rollback()` discards the session) yields the unchanged
store. -/

/-- Response of `POST /users` (app.py `create_user`); a `ValueError` from
validation propagates to the 500 handler, which rolls back. -/
inductive UserResp where
  | created (user_id : Nat)
  | validationError (e : UsernameError)
deriving DecidableEq, Repr

/-- app.py `create_user`: hash the password, construct the `User` (which
runs `validate_username`), add and commit. -/
def create_user (s : Store) (username email password_hash : String) :
    Store × UserResp :=
  match validate_username s username with
  | .error e => (s, .validationError e)
  | .ok _ =>
      let u : User :=
        { id := s.next_user_id, username := username, email := email,
          password := password_hash }
      ({ s with users := s.users ++ [u], next_user_id := s.next_user_id + 1 },
       .created u.id)

/-- Response of `PUT /users/<id>` (app.py `update_user`). -/
inductive UpdateUserResp where
  | updated
  | notFound
  | validationError (e : UsernameError)
deriving DecidableEq, Repr

/-- app.py `update_user`: `get_or_404`, then overwrite whichever of
username (re-validated on assignment), email, and password the request
carries, and commit. -/
def update_user (s : Store) (uid : Nat)
    (username email password_hash : Option String) :
    Store × UpdateUserResp :=
  match s.getUser uid with
  | none => (s, .notFound)
  | some _ =>
      match username with
      | some un =>
          match validate_username s un with
          | .error e => (s, .validationError e)
          | .ok _ =>
              let users' := s.users.map (fun u =>
                if u.id == uid then
                  { u with username := un,
                           email := email.getD u.email,
                           password := password_hash.getD u.password }
                else u)
              ({ s with users := users' }, .updated)
      | none =>
          let users' := s.users.map (fun u =>
            if u.id == uid then
              { u with email := email.getD u.email,
                       password := password_hash.getD u.password }
            else u)
          ({ s with users := users' }, .updated)

/-- app.py `delete_user`: delete the user; the `cascade='all,
delete-orphan'` on `User.orders`, `User.reviews` and `User.cart` removes
the user's orders, and each removed order's own cascades remove its
`OrderItem`s and `ShippingAddress`.  `Payment` rows are not on any
cascade path and stay behind. -/
def delete_user (s : Store) (uid : Nat) : Store × Bool :=
  match s.getUser uid with
  | none => (s, false)
  | some _ =>
      let deadOrders := (s.orders.filter (fun o => o.user_id == uid)).map (·.id)
      ({ s with
          users := s.users.filter (fun u => !(u.id == uid)),
          orders := s.orders.filter (fun o => !(o.user_id == uid)),
          order_items :=
            s.order_items.filter (fun oi => !(deadOrders.contains oi.order_id)),
          shipping_addresses :=
            s.shipping_addresses.filter
              (fun sa => !(deadOrders.contains sa.order_id)) },
       true)

/-- Response of `POST /products` (app.py `create_product`). -/
inductive ProductResp where
  | created (product_id : Nat)
  | invalidCategory
deriving DecidableEq, Repr

/-- app.py `create_product`: reject when the category is missing,
otherwise add the product and commit (`stock` and `is_available` take the
column defaults 0 and True). -/
def create_product (s : Store) (name : String) (price : Money)
    (category_id : Nat) : Store × ProductResp :=
  match s.getCategory category_id with
  | none => (s, .invalidCategory)
  | some _ =>
      let p : Product :=
        { id := s.next_product_id, name := name, category_id := category_id,
          price := price, stock := 0, is_available := true }
      ({ s with products := s.products ++ [p],
                next_product_id := s.next_product_id + 1 },
       .created p.id)

/-! ## Order placement (app.py `create_order`) -/

/-- One entry of the request's `cart_items` array; `quantity` is `none`
when the JSON object has no `quantity` key, in which case
`item.get('quantity', 1)` yields 1. -/
structure CartItemReq where
  product_id : Nat
  quantity : Option Int
deriving DecidableEq, Repr

/-- The request's optional `shipping_address` object; each field is what
`shipping_address_data.get(...)` returns. -/
structure ShippingAddressReq where
  address_line_1 : Option String
  address_line_2 : Option String
  city : Option String
  postal_code : Option String
  country : Option String
deriving DecidableEq, Repr

/-- Response of `POST /orders` (app.py `create_order`).  `integrityError`
is the outcome of a present `shipping_address` payload that omits one of
the `nullable=False` columns: the INSERT raises `IntegrityError` at
`db.session.commit()`, the 500 handler's `db.session.rollback()` discards
the whole request, and the client sees the generic 500 body. -/
inductive OrderResp where
  | created (order_id : Nat)
  | cartEmpty
  | productNotFound (product_id : Nat)
  | integrityError
deriving DecidableEq, Repr

/-- A `shipping_address` payload the store can actually persist: absent,
or carrying every `nullable=False` column of `shipping_addresses`. -/
def shippingComplete : Option ShippingAddressReq → Bool
  | none => true
  | some sd =>
      sd.address_line_1.isSome && sd.city.isSome &&
        sd.postal_code.isSome && sd.country.isSome

/-- The `for item in cart_items` loop of `create_order`: look up each
product (aborting with the first unresolvable `product_id`), take the
item's quantity (defaulting to 1), freeze the line price
`product.price * quantity` into an `OrderItem`, and accumulate the total.
`oid` is the new order's id and `nid` the next `order_items` id. -/
def buildOrderItems (s : Store) (oid : Nat) :
    Nat → List CartItemReq → Except Nat (List OrderItem × Money)
  | _, [] => .ok ([], 0)
  | nid, item :: rest =>
      match s.getProduct item.product_id with
      | none => .error item.product_id
      | some product =>
          let quantity := item.quantity.getD 1
          let price := product.price * quantity
          match buildOrderItems s oid (nid + 1) rest with
          | .error pid => .error pid
          | .ok (its, total) =>
              .ok ({ id := nid, order_id := oid, product_id := product.id,
                     quantity := quantity, price := price } :: its,
                   price + total)

/-- app.py `create_order`: reject an empty cart, walk the items freezing
line prices (an unresolvable product returns before any commit, so the
store is unchanged), set the order's total, optionally attach the
shipping address, and commit everything at once.  A present shipping
payload with a `None` in any `nullable=False` column makes the commit
raise `IntegrityError`; the 500 handler rolls the whole transaction back,
so nothing — order, items or address — is persisted. -/
def create_order (s : Store) (user_id : Nat) (cart_items : List CartItemReq)
    (shipping_address_data : Option ShippingAddressReq) :
    Store × OrderResp :=
  if cart_items.isEmpty then
    (s, .cartEmpty)
  else
    let oid := s.next_order_id
    match buildOrderItems s oid s.next_order_item_id cart_items with
    | .error pid => (s, .productNotFound pid)
    | .ok (its, total_price) =>
        let new_order : Order :=
          { id := oid, user_id := user_id, total_price := total_price,
            is_paid := false, payment_date := none }
        let s' : Store :=
          { s with
              orders := s.orders ++ [new_order],
              order_items := s.order_items ++ its,
              next_order_id := oid + 1,
              next_order_item_id := s.next_order_item_id + its.length }
        match shipping_address_data with
        | none => (s', .created oid)
        | some sd =>
            match sd.address_line_1, sd.city, sd.postal_code,
                sd.country with
            | some a1, some ct, some pc, some co =>
                let sa : ShippingAddress :=
                  { id := s.next_shipping_address_id, order_id := oid,
                    address_line_1 := a1,
                    address_line_2 := sd.address_line_2,
                    city := ct, postal_code := pc, country := co }
                ({ s' with
                    shipping_addresses := s'.shipping_addresses ++ [sa],
                    next_shipping_address_id :=
                      s.next_shipping_address_id + 1 },
                 .created oid)
            | _, _, _, _ => (s, .integrityError)

/-! ## Payment processing (app.py `make_payment`) -/

/-- Response of `POST /payments` (app.py `make_payment`). -/
inductive PaymentResp where
  | created (payment_id : Nat)
  | invalidOrder
deriving DecidableEq, Repr

/-- Flip an order to paid at time `now`, as `order.is_paid = True;
order.payment_date = func.now()` does to the row with the given id. -/
def payOrderRow (oid : Nat) (now : Time) (o : Order) : Order :=
  if o.id == oid then { o with is_paid := true, payment_date := some now }
  else o

set_option linter.unusedVariables false in
/-- app.py `make_payment`.  The handler runs under `@jwt_required()`, so
the authenticated caller's identity is in scope, but the body never reads
it — `caller` is therefore unused, exactly as in the source.  The
client-supplied `amount` is stored verbatim, never compared with the
order's `total_price`.  An order that is missing or already paid returns
400 before any write; otherwise the `Payment` row, `is_paid = True` and
`payment_date = now` are committed together. -/
def make_payment (s : Store) (caller : Nat) (order_id : Nat)
    (payment_method : String) (amount : Money) (now : Time) :
    Store × PaymentResp :=
  match s.getOrder order_id with
  | none => (s, .invalidOrder)
  | some order =>
      if order.is_paid then
        (s, .invalidOrder)
      else
        let payment : Payment :=
          { id := s.next_payment_id, order_id := order_id, amount := amount,
            payment_method := payment_method, payment_date := now }
        ({ s with
            orders := s.orders.map (payOrderRow order_id now),
            payments := s.payments ++ [payment],
            next_payment_id := s.next_payment_id + 1 },
         .created payment.id)

/-! ## Catalog operations missing from app.py, modelled from the spec

app.py exposes no product-update or delete route; the spec (§4.3) lists
them as plain CRUD, and the delete semantics are decided by the
relationship declarations in models.py.  In models.py the
`cascade='all, delete-orphan'` annotations sit on the many-to-one
relationships `Product.category` (line 40) and `OrderItem.product`
(line 125) — i.e. they would propagate a delete from a Product to its
Category and from an OrderItem to its Product, not the reverse — while
the `backref` one-to-many sides (`Category.products`,
`Product.order_items`) keep the default cascade, which does not delete
children.  (SQLAlchemy in fact rejects `delete-orphan` on a many-to-one
relationship at mapper-configuration time.)  Hence deleting a Category
does not delete the Products referencing it, and deleting a Product does
not delete the OrderItems referencing it. -/

/-- Modelled from the spec: the product-update operation of the plain CRUD
of §4.3 (no `PUT /products` route exists in app.py) restricted to the
`price` column — set the product's price and commit. -/
def update_product_price (s : Store) (pid : Nat) (newPrice : Money) : Store :=
  { s with products := s.products.map (fun p =>
      if p.id == pid then { p with price := newPrice } else p) }

/-- Modelled from the spec: the category-delete operation of the plain
CRUD of §4.3 (no `DELETE /categories` route exists in app.py).  Per the
models.py relationship configuration described above, removing the
Category row does not cascade to the Products referencing it. -/
def delete_category (s : Store) (cid : Nat) : Store :=
  { s with categories := s.categories.filter (fun c => !(c.id == cid)) }

/-- Modelled from the spec: the product-delete operation of the plain CRUD
of §4.3 (no `DELETE /products` route exists in app.py).  Per the
models.py relationship configuration described above, removing the
Product row does not cascade to the OrderItems referencing it, whose
frozen prices stay behind. -/
def delete_product (s : Store) (pid : Nat) : Store :=
  { s with products := s.products.filter (fun p => !(p.id == pid)) }

/-! ## The operations of the program as one step relation (for the
temporal claim about `is_paid`) -/

/-- One store-mutating operation of the program: the five app.py handlers
that write to the database, plus the spec-modelled catalog operations. -/
inductive Op where
  | createUser (username email password_hash : String)
  | updateUser (uid : Nat) (username email password_hash : Option String)
  | deleteUser (uid : Nat)
  | createProduct (name : String) (price : Money) (category_id : Nat)
  | createOrder (caller : Nat) (cart_items : List CartItemReq)
      (shipping : Option ShippingAddressReq)
  | makePayment (caller : Nat) (order_id : Nat) (payment_method : String)
      (amount : Money) (now : Time)
  | updateProductPrice (pid : Nat) (newPrice : Money)
  | deleteCategory (cid : Nat)
  | deleteProduct (pid : Nat)
deriving DecidableEq, Repr

/-- Apply one operation to the store, discarding the HTTP response. -/
def applyOp (s : Store) : Op → Store
  | .createUser un em pw => (create_user s un em pw).1
  | .updateUser uid un em pw => (update_user s uid un em pw).1
  | .deleteUser uid => (delete_user s uid).1
  | .createProduct nm pr cid => (create_product s nm pr cid).1
  | .createOrder c items ship => (create_order s c items ship).1
  | .makePayment c oid pm a t => (make_payment s c oid pm a t).1
  | .updateProductPrice pid np => update_product_price s pid np
  | .deleteCategory cid => delete_category s cid
  | .deleteProduct pid => delete_product s pid

/-- Run a sequence of operations left to right. -/
def runOps (s : Store) (ops : List Op) : Store :=
  ops.foldl applyOp s

/-- Value of one cart line under the current catalog: the product's
current price times the item's quantity (with the source's default of 1
for a missing quantity).  The 0 branch for an unresolvable product is
never reached on the success paths the lemmas below describe. -/
def lineAmount (s : Store) (it : CartItemReq) : Money :=
  match s.getProduct it.product_id with
  | some p => p.price * it.quantity.getD 1
  | none => 0

/-! ## Concrete fixture stores, used to evaluate the theorems on
explicit inputs -/

/-- A freshly created database: every table empty, every counter at 1. -/
def dbEmpty : Store :=
  { categories := [], products := [], users := [], orders := [],
    order_items := [], shipping_addresses := [], payments := [],
    next_category_id := 1, next_product_id := 1, next_user_id := 1,
    next_order_id := 1, next_order_item_id := 1,
    next_shipping_address_id := 1, next_payment_id := 1 }

/-- A store holding one registered user. -/
def dbUser : Store :=
  { dbEmpty with
      users := [{ id := 1, username := "valid_user1",
                  email := "v@example.com", password := "hash1" }],
      next_user_id := 2 }

/-- A store holding a small catalog: one category, two products priced
999 and 500 hundredths. -/
def dbCatalog : Store :=
  { dbEmpty with
      categories := [{ id := 1, name := "Electronics" }],
      products :=
        [{ id := 1, name := "Phone", category_id := 1, price := 999,
           stock := 0, is_available := true },
         { id := 2, name := "Cable", category_id := 1, price := 500,
           stock := 0, is_available := true }],
      next_category_id := 2, next_product_id := 3 }

/-- The catalog store after user 5 placed an unpaid order (id 1,
total 2498) with one order-item row. -/
def dbOrder : Store :=
  { dbCatalog with
      orders := [{ id := 1, user_id := 5, total_price := 2498,
                   is_paid := false, payment_date := none }],
      order_items := [{ id := 1, order_id := 1, product_id := 1,
                        quantity := 2, price := 1998 }],
      next_order_id := 2, next_order_item_id := 2 }

/-- The order store after order 1 has been paid at tick 2. -/
def dbPaid : Store :=
  { dbOrder with
      orders := [{ id := 1, user_id := 5, total_price := 2498,
                   is_paid := true, payment_date := some 2 }],
      payments := [{ id := 1, order_id := 1, amount := 2498,
                     payment_method := "card", payment_date := 2 }],
      next_payment_id := 2 }

/-- Order `oid` has been allocated (its id is below the `orders`
autoincrement counter, so no later insert can reuse it) and every order
row carrying it is paid.  This is the inductive form of "order `oid` is
paid and stays paid". -/
def paidForever (s : Store) (oid : Nat) : Prop :=
  oid < s.next_order_id ∧ ∀ o ∈ s.orders, o.id = oid → o.is_paid = true

instance (s : Store) (oid : Nat) : Decidable (paidForever s oid) := by
  unfold paidForever
  infer_instance

/-! ## Lemmas about the order-placement loop -/

/-- Shape of a successful run of the `create_order` item loop: the built
`OrderItem`s carry, line by line, the frozen price and the (defaulted)
quantity of the cart items, they all reference the new order, every
product resolved, and the accumulated total is the sum of the line
amounts. -/
theorem buildOrderItems_ok_shape (s : Store) (oid : Nat)
    (items : List CartItemReq) :
    ∀ (nid : Nat) (its : List OrderItem) (total : Money),
      buildOrderItems s oid nid items = .ok (its, total) →
      its.map (·.price) = items.map (lineAmount s) ∧
      its.map (·.quantity) = items.map (fun it => it.quantity.getD 1) ∧
      (∀ oi ∈ its, oi.order_id = oid) ∧
      (∀ oi ∈ its, ∃ it ∈ items, oi.quantity = it.quantity.getD 1) ∧
      total = (items.map (lineAmount s)).sum ∧
      (∀ it ∈ items, (s.getProduct it.product_id).isSome) := by
  induction items with
  | nil =>
      intro nid its total h
      simp only [buildOrderItems, Except.ok.injEq, Prod.mk.injEq] at h
      obtain ⟨h1, h2⟩ := h
      subst h1; subst h2
      simp
  | cons item rest ih =>
      intro nid its total h
      simp only [buildOrderItems] at h
      cases hp : s.getProduct item.product_id with
      | none => rw [hp] at h; exact absurd h (by simp)
      | some product =>
          rw [hp] at h
          cases hr : buildOrderItems s oid (nid + 1) rest with
          | error pid => rw [hr] at h; exact absurd h (by simp)
          | ok pr =>
              obtain ⟨its', total'⟩ := pr
              rw [hr] at h
              simp only [Except.ok.injEq, Prod.mk.injEq] at h
              obtain ⟨h1, h2⟩ := h
              subst h1; subst h2
              obtain ⟨ihp, ihq, ihord, ihprov, ihtot, ihres⟩ :=
                ih (nid + 1) its' total' hr
              have hl : lineAmount s item = product.price * item.quantity.getD 1 := by
                simp [lineAmount, hp]
              refine ⟨?_, ?_, ?_, ?_, ?_, ?_⟩
              · simp [ihp, hl]
              · simp [ihq]
              · intro oi hoi
                rcases List.mem_cons.mp hoi with hoi | hoi
                · subst hoi; rfl
                · exact ihord oi hoi
              · intro oi hoi
                rcases List.mem_cons.mp hoi with hoi | hoi
                · subst hoi
                  exact ⟨item, List.mem_cons_self _ _, rfl⟩
                · obtain ⟨it, hit, hq⟩ := ihprov oi hoi
                  exact ⟨it, List.mem_cons_of_mem _ hit, hq⟩
              · simp [ihtot, hl]
              · intro it hit
                rcases List.mem_cons.mp hit with hit | hit
                · subst hit; simp [hp]
                · exact ihres it hit

/-- The item loop succeeds whenever every cart item's product resolves. -/
theorem buildOrderItems_isOk (s : Store) (oid : Nat)
    (items : List CartItemReq) :
    ∀ nid : Nat, (∀ it ∈ items, (s.getProduct it.product_id).isSome) →
      ∃ its total, buildOrderItems s oid nid items = .ok (its, total) := by
  induction items with
  | nil => intro nid _; exact ⟨[], 0, rfl⟩
  | cons item rest ih =>
      intro nid hres
      obtain ⟨product, hp⟩ :=
        Option.isSome_iff_exists.mp (hres item (List.mem_cons_self _ _))
      obtain ⟨its', total', hr⟩ :=
        ih (nid + 1) (fun it hit => hres it (List.mem_cons_of_mem _ hit))
      refine ⟨{ id := nid, order_id := oid, product_id := product.id,
                quantity := item.quantity.getD 1,
                price := product.price * item.quantity.getD 1 } :: its',
              product.price * item.quantity.getD 1 + total', ?_⟩
      simp only [buildOrderItems, hp, hr]

/-- The item loop aborts with an unresolvable product id whenever the cart
contains one. -/
theorem buildOrderItems_error (s : Store) (oid : Nat)
    (items : List CartItemReq) :
    ∀ nid : Nat, (∃ it ∈ items, s.getProduct it.product_id = none) →
      ∃ pid, buildOrderItems s oid nid items = .error pid ∧
        s.getProduct pid = none := by
  induction items with
  | nil => intro nid h; simp at h
  | cons item rest ih =>
      intro nid hbad
      cases hp : s.getProduct item.product_id with
      | none =>
          exact ⟨item.product_id, by simp only [buildOrderItems, hp], hp⟩
      | some product =>
          have hbad' : ∃ it ∈ rest, s.getProduct it.product_id = none := by
            obtain ⟨it, hit, hnone⟩ := hbad
            rcases List.mem_cons.mp hit with hit | hit
            · subst hit; rw [hp] at hnone; exact absurd hnone (by simp)
            · exact ⟨it, hit, hnone⟩
          obtain ⟨pid, hr, hnone⟩ := ih (nid + 1) hbad'
          refine ⟨pid, ?_, hnone⟩
          simp only [buildOrderItems, hp, hr]

/-! ## Lemmas about `create_order` -/

/-- Everything a successful `create_order` commits: the single new order
row (holding the sum of the line amounts, unpaid), the new order-item rows
appended after the existing ones with their frozen per-line prices and
quantities, and no change to any other table. -/
theorem create_order_ok_shape (s : Store) (uid : Nat)
    (cart_items : List CartItemReq) (ship : Option ShippingAddressReq)
    (s' : Store) (oid : Nat)
    (h : create_order s uid cart_items ship = (s', .created oid)) :
    oid = s.next_order_id ∧
    ∃ its,
      s'.orders = s.orders ++
        [{ id := oid, user_id := uid,
           total_price := (cart_items.map (lineAmount s)).sum,
           is_paid := false, payment_date := none }] ∧
      s'.order_items = s.order_items ++ its ∧
      its.map (·.price) = cart_items.map (lineAmount s) ∧
      its.map (·.quantity) = cart_items.map (fun it => it.quantity.getD 1) ∧
      (∀ oi ∈ its, oi.order_id = oid) ∧
      (∀ oi ∈ its, ∃ it ∈ cart_items, oi.quantity = it.quantity.getD 1) ∧
      (∀ it ∈ cart_items, (s.getProduct it.product_id).isSome) ∧
      s'.products = s.products ∧ s'.users = s.users ∧
      s'.categories = s.categories ∧ s'.payments = s.payments := by
  unfold create_order at h
  by_cases hemp : cart_items.isEmpty
  · rw [if_pos hemp] at h
    exact absurd (congrArg Prod.snd h) (by simp)
  · rw [if_neg hemp] at h
    cases hb : buildOrderItems s s.next_order_id s.next_order_item_id
        cart_items with
    | error pid =>
        simp only [hb] at h
        exact absurd (congrArg Prod.snd h) (by simp)
    | ok pr =>
        obtain ⟨its, total⟩ := pr
        simp only [hb] at h
        obtain ⟨hprice, hqty, hord, hprov, htot, hres⟩ :=
          buildOrderItems_ok_shape s s.next_order_id cart_items
            s.next_order_item_id its total hb
        subst htot
        split at h
        · simp only [Prod.mk.injEq, OrderResp.created.injEq] at h
          obtain ⟨hs', hoid⟩ := h
          subst hs'; subst hoid
          exact ⟨rfl, its, by simp, by simp, hprice, hqty, hord, hprov,
            hres, rfl, rfl, rfl, rfl⟩
        · split at h
          · simp only [Prod.mk.injEq, OrderResp.created.injEq] at h
            obtain ⟨hs', hoid⟩ := h
            subst hs'; subst hoid
            exact ⟨rfl, its, by simp, by simp, hprice, hqty, hord, hprov,
              hres, rfl, rfl, rfl, rfl⟩
          · exact absurd (congrArg Prod.snd h) (by simp)

/-- A non-empty cart whose products all resolve, with a persistable
shipping payload, is accepted, and the new order's id is the `orders`
autoincrement value. -/
theorem create_order_accepts (s : Store) (uid : Nat)
    (cart_items : List CartItemReq) (ship : Option ShippingAddressReq)
    (hne : cart_items ≠ [])
    (hres : ∀ it ∈ cart_items, (s.getProduct it.product_id).isSome)
    (hship : shippingComplete ship = true) :
    (create_order s uid cart_items ship).2 = .created s.next_order_id := by
  obtain ⟨its, total, hb⟩ :=
    buildOrderItems_isOk s s.next_order_id cart_items s.next_order_item_id hres
  unfold create_order
  rw [if_neg (by simpa using hne)]
  simp only [hb]
  cases ship with
  | none => rfl
  | some sd =>
      simp only [shippingComplete, Bool.and_eq_true] at hship
      obtain ⟨⟨⟨h1, h2⟩, h3⟩, h4⟩ := hship
      obtain ⟨a1, ha1⟩ := Option.isSome_iff_exists.mp h1
      obtain ⟨ct, hct⟩ := Option.isSome_iff_exists.mp h2
      obtain ⟨pc, hpc⟩ := Option.isSome_iff_exists.mp h3
      obtain ⟨co, hco⟩ := Option.isSome_iff_exists.mp h4
      simp only [ha1, hct, hpc, hco]

/-- A present shipping payload that omits one of the `nullable=False`
columns makes the whole request roll back: `create_order` returns the 500
outcome and the store is exactly the pre-request store — no order, no
order items, no address. -/
theorem create_order_incomplete_shipping_rolls_back (s : Store) (uid : Nat)
    (cart_items : List CartItemReq) (sd : ShippingAddressReq)
    (hne : cart_items ≠ [])
    (hres : ∀ it ∈ cart_items, (s.getProduct it.product_id).isSome)
    (hbad : shippingComplete (some sd) = false) :
    create_order s uid cart_items (some sd) = (s, .integrityError) := by
  obtain ⟨its, total, hb⟩ :=
    buildOrderItems_isOk s s.next_order_id cart_items s.next_order_item_id hres
  unfold create_order
  rw [if_neg (by simpa using hne)]
  simp only [hb]
  split
  · rename_i a1 ct pc co ha1 hct hpc hco
    simp [shippingComplete, ha1, hct, hpc, hco] at hbad
  · rfl

/-! ## Lemmas about `make_payment` -/

/-- `payOrderRow` never changes a row's id, so the primary-key predicate
commutes with it under `find?`. -/
theorem find?_map_payOrderRow (l : List Order) (oid : Nat) (now : Time) :
    (l.map (payOrderRow oid now)).find? (fun o => o.id == oid) =
      (l.find? (fun o => o.id == oid)).map (payOrderRow oid now) := by
  have hp : ((fun o => o.id == oid) ∘ payOrderRow oid now) =
      (fun o : Order => o.id == oid) := by
    funext o
    simp only [Function.comp, payOrderRow]
    split <;> rfl
  rw [List.find?_map, hp]

/-- The exact store and response of a successful `make_payment`: one new
`Payment` row holding the caller's amount, the order rows run through
`payOrderRow`, the payments counter bumped, and nothing else touched. -/
theorem make_payment_success_state (s : Store) (c oid : Nat) (pm : String)
    (a : Money) (t : Time) (o : Order)
    (ho : s.getOrder oid = some o) (hnp : o.is_paid = false) :
    make_payment s c oid pm a t =
      ({ s with
          orders := s.orders.map (payOrderRow oid t),
          payments := s.payments ++
            [{ id := s.next_payment_id, order_id := oid, amount := a,
               payment_method := pm, payment_date := t }],
          next_payment_id := s.next_payment_id + 1 },
       .created s.next_payment_id) := by
  unfold make_payment
  rw [ho]
  simp [hnp]

/-- A missing or already-paid order makes `make_payment` return 400 with
the store untouched. -/
theorem make_payment_fail_state (s : Store) (c oid : Nat) (pm : String)
    (a : Money) (t : Time)
    (hfail : s.getOrder oid = none ∨
      ∃ o, s.getOrder oid = some o ∧ o.is_paid = true) :
    make_payment s c oid pm a t = (s, .invalidOrder) := by
  unfold make_payment
  rcases hfail with hnone | ⟨o, ho, hp⟩
  · rw [hnone]
  · rw [ho]; simp [hp]

/-- After a successful payment the order looked up by id is the old row
with `is_paid` set and the payment date stamped. -/
theorem getOrder_after_pay (s : Store) (oid : Nat) (t : Time) (o : Order)
    (ho : s.getOrder oid = some o) :
    (List.find? (fun r => r.id == oid) (s.orders.map (payOrderRow oid t))) =
      some { o with is_paid := true, payment_date := some t } := by
  have ho' : List.find? (fun o => o.id == oid) s.orders = some o := ho
  have hpred := List.find?_some ho'
  rw [find?_map_payOrderRow, ho']
  show some (payOrderRow oid t o) = _
  unfold payOrderRow
  rw [if_pos hpred]

/-! ## Lemmas about the `is_paid` lifecycle -/

/-- No single operation un-pays an allocated, fully-paid order. -/
theorem paidForever_applyOp (s : Store) (op : Op) (oid : Nat)
    (h : paidForever s oid) : paidForever (applyOp s op) oid := by
  obtain ⟨hlt, hpaid⟩ := h
  cases op with
  | createUser un em pw =>
      show paidForever (create_user s un em pw).1 oid
      unfold create_user
      cases validate_username s un <;> exact ⟨hlt, hpaid⟩
  | updateUser uid un em pw =>
      have he : (update_user s uid un em pw).1.orders = s.orders ∧
          (update_user s uid un em pw).1.next_order_id = s.next_order_id := by
        unfold update_user
        repeat' split
        all_goals exact ⟨rfl, rfl⟩
      show paidForever (update_user s uid un em pw).1 oid
      refine ⟨?_, ?_⟩
      · rw [he.2]; exact hlt
      · rw [he.1]; exact hpaid
  | deleteUser uid =>
      show paidForever (delete_user s uid).1 oid
      unfold delete_user
      cases s.getUser uid with
      | none => exact ⟨hlt, hpaid⟩
      | some u =>
          refine ⟨hlt, fun o ho hid => ?_⟩
          exact hpaid o (List.mem_of_mem_filter ho) hid
  | createProduct nm pr cid =>
      show paidForever (create_product s nm pr cid).1 oid
      unfold create_product
      cases s.getCategory cid <;> exact ⟨hlt, hpaid⟩
  | createOrder c items ship =>
      show paidForever (create_order s c items ship).1 oid
      unfold create_order
      by_cases hemp : items.isEmpty
      · rw [if_pos hemp]; exact ⟨hlt, hpaid⟩
      · rw [if_neg hemp]
        cases hb : buildOrderItems s s.next_order_id s.next_order_item_id
            items with
        | error pid => simp only [hb]; exact ⟨hlt, hpaid⟩
        | ok pr' =>
            obtain ⟨its, total⟩ := pr'
            simp only [hb]
            have hstep : ∀ o ∈ s.orders ++
                [{ id := s.next_order_id, user_id := c, total_price := total,
                   is_paid := false, payment_date := none }],
                o.id = oid → o.is_paid = true := by
              intro o ho hid
              rcases List.mem_append.mp ho with ho | ho
              · exact hpaid o ho hid
              · exfalso
                simp only [List.mem_singleton] at ho
                subst ho
                have : s.next_order_id = oid := hid
                omega
            split
            · exact ⟨Nat.lt_succ_of_lt hlt, hstep⟩
            · split
              · exact ⟨Nat.lt_succ_of_lt hlt, hstep⟩
              · exact ⟨hlt, hpaid⟩
  | makePayment c oid' pm a t =>
      show paidForever (make_payment s c oid' pm a t).1 oid
      unfold make_payment
      split
      · exact ⟨hlt, hpaid⟩
      · split
        · exact ⟨hlt, hpaid⟩
        · refine ⟨hlt, fun o' ho' hid => ?_⟩
          rcases List.mem_map.mp ho' with ⟨o₁, ho₁, rfl⟩
          by_cases h1 : (o₁.id == oid') = true
          · simp [payOrderRow, h1]
          · simp only [payOrderRow, h1, Bool.false_eq_true,
              ite_false] at hid ⊢
            exact hpaid o₁ ho₁ hid
  | updateProductPrice pid np =>
      exact ⟨hlt, hpaid⟩
  | deleteCategory cid =>
      exact ⟨hlt, hpaid⟩
  | deleteProduct pid =>
      exact ⟨hlt, hpaid⟩

/-- Along any operation sequence, an allocated, fully-paid order stays
paid. -/
theorem paidForever_runOps (s : Store) (ops : List Op) (oid : Nat)
    (h : paidForever s oid) : paidForever (runOps s ops) oid := by
  induction ops generalizing s with
  | nil => exact h
  | cons op rest ih => exact ih (applyOp s op) (paidForever_applyOp s op oid h)

/-- Provenance of every order row after one operation: it is an untouched
old row, a freshly created unpaid row, or an old row that a successful
`make_payment` targeting its id just flipped from unpaid to paid. -/
theorem applyOp_order_provenance (s : Store) (op : Op) :
    ∀ o' ∈ (applyOp s op).orders,
      o' ∈ s.orders ∨ o'.is_paid = false ∨
      ∃ c oid pm a t, op = Op.makePayment c oid pm a t ∧
        (∃ o₀, s.getOrder oid = some o₀ ∧ o₀.is_paid = false) ∧
        ∃ o ∈ s.orders, o.id = oid ∧
          o' = { o with is_paid := true, payment_date := some t } := by
  cases op with
  | createUser un em pw =>
      intro o' ho'
      left
      have he : (create_user s un em pw).1.orders = s.orders := by
        unfold create_user
        cases validate_username s un <;> rfl
      rw [show applyOp s (Op.createUser un em pw) = (create_user s un em pw).1
            from rfl, he] at ho'
      exact ho'
  | updateUser uid un em pw =>
      intro o' ho'
      left
      have he : (update_user s uid un em pw).1.orders = s.orders := by
        unfold update_user
        repeat' split
        all_goals rfl
      rw [show applyOp s (Op.updateUser uid un em pw) =
            (update_user s uid un em pw).1 from rfl, he] at ho'
      exact ho'
  | deleteUser uid =>
      intro o' ho'
      left
      revert ho'
      show o' ∈ (delete_user s uid).1.orders → o' ∈ s.orders
      unfold delete_user
      cases s.getUser uid with
      | none => exact id
      | some u => exact fun ho' => List.mem_of_mem_filter ho'
  | createProduct nm pr cid =>
      intro o' ho'
      left
      have he : (create_product s nm pr cid).1.orders = s.orders := by
        unfold create_product
        cases s.getCategory cid <;> rfl
      rw [show applyOp s (Op.createProduct nm pr cid) =
            (create_product s nm pr cid).1 from rfl, he] at ho'
      exact ho'
  | createOrder c items ship =>
      intro o' ho'
      revert ho'
      show o' ∈ (create_order s c items ship).1.orders → _
      unfold create_order
      by_cases hemp : items.isEmpty
      · rw [if_pos hemp]; exact fun ho' => .inl ho'
      · rw [if_neg hemp]
        cases hb : buildOrderItems s s.next_order_id s.next_order_item_id
            items with
        | error pid => simp only [hb]; exact fun ho' => .inl ho'
        | ok pr' =>
            obtain ⟨its, total⟩ := pr'
            simp only [hb]
            split
            · intro ho'
              rcases List.mem_append.mp ho' with h | h
              · exact .inl h
              · simp only [List.mem_singleton] at h
                subst h
                exact .inr (.inl rfl)
            · split
              · intro ho'
                rcases List.mem_append.mp ho' with h | h
                · exact .inl h
                · simp only [List.mem_singleton] at h
                  subst h
                  exact .inr (.inl rfl)
              · exact fun ho' => .inl ho'
  | makePayment c oid' pm a t =>
      intro o' ho'
      revert ho'
      show o' ∈ (make_payment s c oid' pm a t).1.orders → _
      unfold make_payment
      split
      · exact fun ho' => .inl ho'
      · rename_i o₀ ho
        split
        · exact fun ho' => .inl ho'
        · rename_i hp
          intro ho'
          rcases List.mem_map.mp ho' with ⟨o₁, ho₁, rfl⟩
          by_cases h1 : (o₁.id == oid') = true
          · right; right
            refine ⟨c, oid', pm, a, t, rfl,
              ⟨o₀, ho, by simpa using hp⟩, o₁, ho₁, by simpa using h1, ?_⟩
            simp [payOrderRow, h1]
          · left
            simp only [payOrderRow, h1, Bool.false_eq_true, ite_false]
            exact ho₁
  | updateProductPrice pid np =>
      exact fun o' ho' => .inl ho'
  | deleteCategory cid =>
      exact fun o' ho' => .inl ho'
  | deleteProduct pid =>
      exact fun o' ho' => .inl ho'

/-! ## Claim theorems -/

/-- C1: for every non-empty cart whose product ids all resolve, and any
shipping payload the store can persist (absent, or carrying every
`nullable=False` column — otherwise the commit raises `IntegrityError`
and the whole request rolls back), `create_order` commits exactly one new
order whose `total_price` is the sum, over the cart items, of the
product's current price times the item's quantity, plus one `OrderItem`
per line whose `price` field holds that line's frozen
`unit_price * quantity`; a later update of a product's price changes
neither the committed order rows nor the committed order-item rows. -/
theorem create_order_totals_and_freezes_prices (s : Store) (uid : Nat)
    (cart_items : List CartItemReq) (ship : Option ShippingAddressReq)
    (hne : cart_items ≠ [])
    (hres : ∀ it ∈ cart_items, (s.getProduct it.product_id).isSome)
    (hship : shippingComplete ship = true) :
    ∃ s' its,
      create_order s uid cart_items ship = (s', .created s.next_order_id) ∧
      s'.orders = s.orders ++
        [{ id := s.next_order_id, user_id := uid,
           total_price := (cart_items.map (lineAmount s)).sum,
           is_paid := false, payment_date := none }] ∧
      s'.order_items = s.order_items ++ its ∧
      its.map (·.price) = cart_items.map (lineAmount s) ∧
      (∀ oi ∈ its, oi.order_id = s.next_order_id) ∧
      (∀ it p, s.getProduct it.product_id = some p →
          lineAmount s it = p.price * it.quantity.getD 1) ∧
      (∀ pid newPrice,
        (update_product_price s' pid newPrice).orders = s'.orders ∧
        (update_product_price s' pid newPrice).order_items =
          s'.order_items) := by
  have hcr := create_order_accepts s uid cart_items ship hne hres hship
  have hpair : create_order s uid cart_items ship =
      ((create_order s uid cart_items ship).1, .created s.next_order_id) := by
    rw [← hcr]
  obtain ⟨hoid, its, horders, hoitems, hprice, hqty, hord, hprov, hresall,
    hprod, husers, hcats, hpays⟩ :=
    create_order_ok_shape s uid cart_items ship _ _ hpair
  exact ⟨_, its, hpair, horders, hoitems, hprice, hord,
    fun it p hp => by simp [lineAmount, hp],
    fun pid np => ⟨rfl, rfl⟩⟩

/-- C1 witness: on the concrete catalog, a two-line cart (2 x 999 and
1 x 500, the second line with the quantity key absent) is committed with
total 2498. -/
theorem create_order_totals_and_freezes_prices_witness :
    (∃ s' its,
      create_order dbCatalog 7
          [{ product_id := 1, quantity := some 2 },
           { product_id := 2, quantity := none }] none =
        (s', .created 1) ∧
      s'.orders = dbCatalog.orders ++
        [{ id := 1, user_id := 7,
           total_price :=
             (([{ product_id := 1, quantity := some 2 },
                { product_id := 2, quantity := none }] :
                 List CartItemReq).map (lineAmount dbCatalog)).sum,
           is_paid := false, payment_date := none }] ∧
      s'.order_items = dbCatalog.order_items ++ its) ∧
    (([{ product_id := 1, quantity := some 2 },
       { product_id := 2, quantity := none }] :
        List CartItemReq).map (lineAmount dbCatalog)).sum = 2498 := by
  obtain ⟨s', its, h1, h2, h3, _⟩ :=
    create_order_totals_and_freezes_prices dbCatalog 7
      [{ product_id := 1, quantity := some 2 },
       { product_id := 2, quantity := none }] none
      (by decide) (by decide) (by decide)
  exact ⟨⟨s', its, h1, h2, h3⟩, by decide⟩

/-- C2: a cart containing an unresolvable product id makes `create_order`
return the product-not-found error with the store exactly as before — no
order, order-item or shipping-address row from the request survives. -/
theorem create_order_missing_product_aborts (s : Store) (uid : Nat)
    (cart_items : List CartItemReq) (ship : Option ShippingAddressReq)
    (hbad : ∃ it ∈ cart_items, s.getProduct it.product_id = none) :
    (create_order s uid cart_items ship).1 = s ∧
    ∃ pid, (create_order s uid cart_items ship).2 = .productNotFound pid ∧
      s.getProduct pid = none := by
  have hne : ¬cart_items.isEmpty = true := by
    rcases hbad with ⟨it, hit, _⟩
    cases cart_items
    · simp at hit
    · simp
  obtain ⟨pid, hb, hnone⟩ :=
    buildOrderItems_error s s.next_order_id cart_items s.next_order_item_id
      hbad
  refine ⟨?_, pid, ?_, hnone⟩
  · unfold create_order
    rw [if_neg hne]
    simp only [hb]
  · unfold create_order
    rw [if_neg hne]
    simp only [hb]

/-- C2 witness: a cart referencing the nonexistent product 99 is rejected
on the concrete catalog and the store is returned untouched. -/
theorem create_order_missing_product_aborts_witness :
    (create_order dbCatalog 7
        [{ product_id := 1, quantity := some 1 },
         { product_id := 99, quantity := none }] none).1 = dbCatalog ∧
    ∃ pid, (create_order dbCatalog 7
        [{ product_id := 1, quantity := some 1 },
         { product_id := 99, quantity := none }] none).2 =
      .productNotFound pid ∧
      dbCatalog.getProduct pid = none :=
  create_order_missing_product_aborts dbCatalog 7
    [{ product_id := 1, quantity := some 1 },
     { product_id := 99, quantity := none }] none (by decide)

/-- C9 counterexample: the claim "every persisted OrderItem has
quantity ≥ 1" is false — a cart item that supplies `quantity = 0` is
accepted and stored verbatim, because `item.get('quantity', 1)` only
substitutes 1 when the key is absent. -/
theorem order_item_zero_quantity_cex :
    (create_order dbCatalog 7
        [{ product_id := 1, quantity := some 0 }] none).2 = .created 1 ∧
    ¬(∀ oi ∈ (create_order dbCatalog 7
        [{ product_id := 1, quantity := some 0 }] none).1.order_items,
        1 ≤ oi.quantity) := by decide

/-- C9 (amended): a persisted OrderItem's quantity is exactly the cart
item's supplied quantity, with 1 substituted only when the request omits
the key; consequently quantity ≥ 1 holds precisely when every supplied
quantity is ≥ 1. -/
theorem order_item_quantity_follows_request (s : Store) (uid : Nat)
    (cart_items : List CartItemReq) (ship : Option ShippingAddressReq)
    (oid : Nat)
    (h : (create_order s uid cart_items ship).2 = .created oid) :
    ∃ its,
      (create_order s uid cart_items ship).1.order_items =
        s.order_items ++ its ∧
      its.map (·.quantity) =
        cart_items.map (fun it => it.quantity.getD 1) ∧
      ((∀ it ∈ cart_items, ∀ q, it.quantity = some q → 1 ≤ q) →
        ∀ oi ∈ its, 1 ≤ oi.quantity) := by
  have hpair : create_order s uid cart_items ship =
      ((create_order s uid cart_items ship).1, .created oid) := by
    rw [← h]
  obtain ⟨hoid, its, horders, hoitems, hprice, hqty, hord, hprov, hresall,
    hprod, husers, hcats, hpays⟩ :=
    create_order_ok_shape s uid cart_items ship _ _ hpair
  refine ⟨its, hoitems, hqty, fun hq oi hoi => ?_⟩
  obtain ⟨it, hit, he⟩ := hprov oi hoi
  rw [he]
  cases hqt : it.quantity with
  | none => simp
  | some q => simpa using hq it hit q hqt

/-- C9 (amended) witness: a supplied quantity 2 and an omitted quantity
are stored as 2 and 1 on the concrete catalog. -/
theorem order_item_quantity_follows_request_witness :
    ∃ its,
      (create_order dbCatalog 7
          [{ product_id := 1, quantity := some 2 },
           { product_id := 2, quantity := none }] none).1.order_items =
        dbCatalog.order_items ++ its ∧
      its.map (·.quantity) =
        ([{ product_id := 1, quantity := some 2 },
          { product_id := 2, quantity := none }] :
           List CartItemReq).map (fun it => it.quantity.getD 1) ∧
      ((∀ it ∈ ([{ product_id := 1, quantity := some 2 },
          { product_id := 2, quantity := none }] : List CartItemReq),
          ∀ q, it.quantity = some q → 1 ≤ q) →
        ∀ oi ∈ its, 1 ≤ oi.quantity) :=
  order_item_quantity_follows_request dbCatalog 7
    [{ product_id := 1, quantity := some 2 },
     { product_id := 2, quantity := none }] none 1 (by decide)

/-- C3: `make_payment` fails with the invalid-order 400 precisely when the
order is missing or already paid, and then writes nothing; after a
successful payment of an order with no prior payments, exactly one
payment row references it and a second payment attempt fails with the
store unchanged. -/
theorem make_payment_requires_unpaid_existing_order (s : Store)
    (c oid : Nat) (pm : String) (a : Money) (t : Time) :
    ((make_payment s c oid pm a t).2 = .invalidOrder ↔
      s.getOrder oid = none ∨
        ∃ o, s.getOrder oid = some o ∧ o.is_paid = true) ∧
    ((make_payment s c oid pm a t).2 = .invalidOrder →
      (make_payment s c oid pm a t).1 = s) ∧
    ((∀ p ∈ s.payments, p.order_id ≠ oid) →
      (make_payment s c oid pm a t).2 = .created s.next_payment_id →
      (((make_payment s c oid pm a t).1.payments.filter
          (fun p => p.order_id == oid)).length = 1 ∧
       ∀ c' pm' a' t',
         make_payment ((make_payment s c oid pm a t).1) c' oid pm' a' t' =
           ((make_payment s c oid pm a t).1, .invalidOrder))) := by
  rcases hgo : s.getOrder oid with _ | o
  · have hfail := make_payment_fail_state s c oid pm a t (Or.inl hgo)
    rw [hfail]
    refine ⟨by simp [hgo], fun _ => rfl, fun _ hsucc => ?_⟩
    exact absurd hsucc (by simp)
  · by_cases hp : o.is_paid
    · have hfail := make_payment_fail_state s c oid pm a t
        (Or.inr ⟨o, hgo, hp⟩)
      rw [hfail]
      refine ⟨⟨fun _ => Or.inr ⟨o, rfl, hp⟩, fun _ => rfl⟩, fun _ => rfl,
        fun _ hsucc => ?_⟩
      exact absurd hsucc (by simp)
    · have hp' : o.is_paid = false := by simpa using hp
      have hsucc := make_payment_success_state s c oid pm a t o hgo hp'
      rw [hsucc]
      refine ⟨⟨fun hc => absurd hc (by simp), ?_⟩,
        fun hc => absurd hc (by simp), fun hnone _ => ⟨?_, ?_⟩⟩
      · rintro (hc | ⟨o', ho', hpo'⟩)
        · exact absurd hc (by simp)
        · have he : o = o' := by injection ho'
          subst he
          rw [hp'] at hpo'
          exact absurd hpo' (by simp)
      · have h0 : s.payments.filter (fun p => p.order_id == oid) = [] :=
          List.filter_eq_nil_iff.mpr (fun p hp2 => by simpa using hnone p hp2)
        simp [List.filter_append, h0]
      · intro c' pm' a' t'
        apply make_payment_fail_state
        right
        refine ⟨{ o with is_paid := true, payment_date := some t }, ?_, rfl⟩
        exact getOrder_after_pay s oid t o hgo

/-- C3 witness: on the concrete unpaid order, the first payment leaves
exactly one payment row for the order and any second attempt fails with
the store unchanged. -/
theorem make_payment_requires_unpaid_existing_order_witness :
    (((make_payment dbOrder 9 1 ("card") 500 3).1.payments.filter
        (fun p => p.order_id == 1)).length = 1 ∧
     ∀ c' pm' a' t',
       make_payment ((make_payment dbOrder 9 1 ("card") 500 3).1) c' 1
           pm' a' t' =
         ((make_payment dbOrder 9 1 ("card") 500 3).1, .invalidOrder)) :=
  (make_payment_requires_unpaid_existing_order dbOrder 9 1 ("card")
      500 3).2.2 (by decide) (by decide)

/-- C4: `make_payment` is atomic: either the order exists unpaid and the
full effect is committed — exactly one new payment row referencing the
order, the order's `is_paid` set to true and `payment_date` stamped with
the current time, the payments counter bumped, nothing else changed — or
the call returns 400 with the store exactly as before. -/
theorem make_payment_atomic_effects (s : Store) (c oid : Nat) (pm : String)
    (a : Money) (t : Time) :
    (∃ o, s.getOrder oid = some o ∧ o.is_paid = false ∧
      make_payment s c oid pm a t =
        ({ s with
            orders := s.orders.map (payOrderRow oid t),
            payments := s.payments ++
              [{ id := s.next_payment_id, order_id := oid, amount := a,
                 payment_method := pm, payment_date := t }],
            next_payment_id := s.next_payment_id + 1 },
         .created s.next_payment_id) ∧
      (make_payment s c oid pm a t).1.getOrder oid =
        some { o with is_paid := true, payment_date := some t }) ∨
    make_payment s c oid pm a t = (s, .invalidOrder) := by
  rcases hgo : s.getOrder oid with _ | o
  · exact Or.inr (make_payment_fail_state s c oid pm a t (Or.inl hgo))
  · by_cases hp : o.is_paid
    · exact Or.inr
        (make_payment_fail_state s c oid pm a t (Or.inr ⟨o, hgo, hp⟩))
    · have hp' : o.is_paid = false := by simpa using hp
      have hsucc := make_payment_success_state s c oid pm a t o hgo hp'
      refine Or.inl ⟨o, rfl, hp', hsucc, ?_⟩
      rw [hsucc]
      exact getOrder_after_pay s oid t o hgo

/-- C5: `make_payment` never compares the caller-supplied amount with the
order's `total_price`: for every amount, paying an existing unpaid order
succeeds and appends a payment row holding that amount verbatim. -/
theorem make_payment_stores_caller_amount (s : Store) (c oid : Nat)
    (pm : String) (t : Time) (a : Money) (o : Order)
    (ho : s.getOrder oid = some o) (hnp : o.is_paid = false) :
    (make_payment s c oid pm a t).2 = .created s.next_payment_id ∧
    (make_payment s c oid pm a t).1.payments =
      s.payments ++
        [{ id := s.next_payment_id, order_id := oid, amount := a,
           payment_method := pm, payment_date := t }] := by
  rw [make_payment_success_state s c oid pm a t o ho hnp]
  exact ⟨rfl, rfl⟩

/-- C5 witness: on the concrete unpaid order of total 2498, an amount of
750 — different from the total — is accepted and stored verbatim. -/
theorem make_payment_stores_caller_amount_witness :
    dbOrder.getOrder 1 =
      some { id := 1, user_id := 5, total_price := 2498,
             is_paid := false, payment_date := none } ∧
    (750 : Money) ≠ 2498 ∧
    (make_payment dbOrder 2 1 ("mpesa") 750 4).2 = .created 1 ∧
    (make_payment dbOrder 2 1 ("mpesa") 750 4).1.payments =
      dbOrder.payments ++
        [{ id := 1, order_id := 1, amount := 750,
           payment_method := "mpesa", payment_date := 4 }] := by
  have h := make_payment_stores_caller_amount dbOrder 2 1 ("mpesa") 4 750
    { id := 1, user_id := 5, total_price := 2498, is_paid := false,
      payment_date := none } (by decide) (by decide)
  exact ⟨by decide, by decide, h.1, h.2⟩

/-- C10: the outcome of `make_payment` is independent of the
authenticated caller — the handler never reads the JWT identity — so two
different callers submitting the same request get identical results and
identical stores; in particular a caller who does not own the order still
pays it successfully, as no ownership check exists. -/
theorem make_payment_ignores_caller_identity :
    (∀ (s : Store) (c₁ c₂ oid : Nat) (pm : String) (a : Money) (t : Time),
        make_payment s c₁ oid pm a t = make_payment s c₂ oid pm a t) ∧
    (∀ (s : Store) (c oid : Nat) (pm : String) (a : Money) (t : Time)
        (o : Order), s.getOrder oid = some o → o.is_paid = false →
        o.user_id ≠ c →
        (make_payment s c oid pm a t).2 = .created s.next_payment_id) := by
  constructor
  · intro s c₁ c₂ oid pm a t
    rfl
  · intro s c oid pm a t o ho hnp _
    rw [make_payment_success_state s c oid pm a t o ho hnp]

/-- C10 witness: caller 2, who does not own order 1 (owned by user 5),
successfully pays it on the concrete store. -/
theorem make_payment_ignores_caller_identity_witness :
    (make_payment dbOrder 2 1 ("card") 100 4).2 = .created 1 :=
  make_payment_ignores_caller_identity.2 dbOrder 2 1 ("card") 100 4
    { id := 1, user_id := 5, total_price := 2498, is_paid := false,
      payment_date := none } (by decide) (by decide) (by decide)

/-- C6: across every operation of the program, an order row's `is_paid`
never goes from true back to false — after any single operation each
order row is an untouched old row, a freshly created unpaid row, or an
old unpaid row that a successful `make_payment` targeting its id just set
to paid — and along any operation sequence an allocated, fully-paid order
stays paid. -/
theorem order_paid_never_reverts :
    (∀ (s : Store) (op : Op), ∀ o' ∈ (applyOp s op).orders,
        o' ∈ s.orders ∨ o'.is_paid = false ∨
        ∃ c oid pm a t, op = Op.makePayment c oid pm a t ∧
          (∃ o₀, s.getOrder oid = some o₀ ∧ o₀.is_paid = false) ∧
          ∃ o ∈ s.orders, o.id = oid ∧
            o' = { o with is_paid := true, payment_date := some t }) ∧
    (∀ (s : Store) (oid : Nat) (ops : List Op),
        paidForever s oid → paidForever (runOps s ops) oid) :=
  ⟨applyOp_order_provenance, fun s oid ops h => paidForever_runOps s ops oid h⟩

/-- C6 witness: the paid order of the concrete store stays paid across a
product deletion, a repeated payment attempt and a fresh order. -/
theorem order_paid_never_reverts_witness :
    paidForever (runOps dbPaid
      [Op.deleteProduct 1, Op.makePayment 9 1 ("card") 1 7,
       Op.createOrder 5 [{ product_id := 2, quantity := none }] none]) 1 :=
  order_paid_never_reverts.2 dbPaid 1
    [Op.deleteProduct 1, Op.makePayment 9 1 ("card") 1 7,
     Op.createOrder 5 [{ product_id := 2, quantity := none }] none]
    (by decide)

/-- C7: the concrete examples of the username rule behave as documented —
"ab" is too short, "valid_user1" is accepted, a duplicate is rejected —
but the validation also accepts "abc\n", which contains a character that
is not a letter, digit or underscore: Python's `$` in `re.match(r"^\w+$",
...)` matches before a trailing newline, contradicting the validator's
own error message. -/
theorem validate_username_accepts_trailing_newline :
    validate_username dbEmpty ("ab") = .error .badLength ∧
    validate_username dbEmpty ("valid_user1") = .ok ("valid_user1") ∧
    validate_username dbUser ("valid_user1") = .error .duplicate ∧
    validate_username dbEmpty ("abc\n") = .ok ("abc\n") ∧
    (∃ ch ∈ ("abc\n").toList, isWordChar ch = false) := by decide

/-- C8: the cascade configuration is inverted relative to the claim —
deleting the category of the concrete store removes only the category
row, leaving its product (still carrying `category_id = 1`) in place, so
no Category→Product cascade exists; deleting a product leaves every
historical order-item row, with its frozen price, untouched. -/
theorem delete_cascades_misconfigured :
    (delete_category dbOrder 1).categories = [] ∧
    (delete_category dbOrder 1).products = dbOrder.products ∧
    (∃ p ∈ (delete_category dbOrder 1).products, p.category_id = 1) ∧
    (delete_product dbOrder 1).order_items = dbOrder.order_items ∧
    (∃ oi ∈ (delete_product dbOrder 1).order_items,
        oi.product_id = 1 ∧ oi.price = 1998) := by decide
